import Mathlib

set_option maxRecDepth 4000

/-!
Shallow embedding of the Tobira dummy login handler
(`src/scripts/auth/login-handler.py`) and proofs about its
request-to-outcome protocol.

The handler receives an HTTP POST request (content-type header,
content-length header, raw body bytes), validates the content type,
reads and UTF-8-decodes the body, parses it as an
`application/x-www-form-urlencoded` query string, checks the submitted
credentials against the fixed `DUMMY_USERS` table, and produces one of
the responses 400 / 403 / 204 together with at most one diagnostic log
line.  Uncaught Python exceptions (bad `content-length`, undecodable
body) are modelled by `Option`: `do_POST r = none`.
-/

/-- UTF-8 encoding of one character (what Python `str.encode()` does per
code point): the standard 1-to-4-byte encoding of the code point
`c.toNat`, each byte a `Nat` below 256. -/
def utf8EncodeChar (c : Char) : List Nat :=
  let n := c.toNat
  if n < 128 then [n]
  else if n < 2048 then [192 + n / 64, 128 + n % 64]
  else if n < 65536 then [224 + n / 4096, 128 + n / 64 % 64, 128 + n % 64]
  else [240 + n / 262144, 128 + n / 4096 % 64, 128 + n / 64 % 64, 128 + n % 64]

/-- UTF-8 encoding of a string (Python `s.encode()`), as a list of bytes. -/
def utf8Encode (s : String) : List Nat := s.data.flatMap utf8EncodeChar

/-- Strict UTF-8 decoding, as performed by Python `bytes.decode()` which
raises `UnicodeDecodeError` on invalid input (modelled by `none`):
rejects stray continuation bytes, overlong encodings, surrogates and
code points above 0x10FFFF. -/
def utf8Decode? : List Nat → Option (List Char)
  | [] => some []
  | b :: rest =>
    if b < 128 then
      (utf8Decode? rest).map (fun cs => Char.ofNat b :: cs)
    else if b < 194 then none
    else if b < 224 then
      match rest with
      | b2 :: rest2 =>
        if 128 ≤ b2 ∧ b2 < 192 then
          (utf8Decode? rest2).map (fun cs => Char.ofNat ((b - 192) * 64 + (b2 - 128)) :: cs)
        else none
      | [] => none
    else if b < 240 then
      match rest with
      | b2 :: b3 :: rest2 =>
        let n := (b - 224) * 4096 + (b2 - 128) * 64 + (b3 - 128)
        if (128 ≤ b2 ∧ b2 < 192) ∧ (128 ≤ b3 ∧ b3 < 192) ∧ 2048 ≤ n ∧
            ¬ (55296 ≤ n ∧ n < 57344) then
          (utf8Decode? rest2).map (fun cs => Char.ofNat n :: cs)
        else none
      | _ => none
    else if b < 245 then
      match rest with
      | b2 :: b3 :: b4 :: rest2 =>
        let n := (b - 240) * 262144 + (b2 - 128) * 4096 + (b3 - 128) * 64 + (b4 - 128)
        if (128 ≤ b2 ∧ b2 < 192) ∧ (128 ≤ b3 ∧ b3 < 192) ∧ (128 ≤ b4 ∧ b4 < 192) ∧
            65536 ≤ n ∧ n < 1114112 then
          (utf8Decode? rest2).map (fun cs => Char.ofNat n :: cs)
        else none
      | _ => none
    else none

/-- The Unicode replacement character U+FFFD. -/
def replChar : Char := Char.ofNat 65533

/-- UTF-8 decoding with replacement of invalid sequences by U+FFFD, as
used by `urllib.parse.unquote`'s default `errors='replace'`.  On an
invalid sequence we emit one U+FFFD and resume after the offending lead
byte; CPython replaces each maximal invalid subpart, which agrees with
this on the common cases (no claim below exercises invalid input). -/
def utf8DecodeReplace : List Nat → List Char
  | [] => []
  | b :: rest =>
    if b < 128 then Char.ofNat b :: utf8DecodeReplace rest
    else if b < 194 then replChar :: utf8DecodeReplace rest
    else if b < 224 then
      match rest with
      | b2 :: rest2 =>
        if 128 ≤ b2 ∧ b2 < 192 then
          Char.ofNat ((b - 192) * 64 + (b2 - 128)) :: utf8DecodeReplace rest2
        else replChar :: utf8DecodeReplace (b2 :: rest2)
      | [] => [replChar]
    else if b < 240 then
      match rest with
      | b2 :: b3 :: rest2 =>
        let n := (b - 224) * 4096 + (b2 - 128) * 64 + (b3 - 128)
        if (128 ≤ b2 ∧ b2 < 192) ∧ (128 ≤ b3 ∧ b3 < 192) ∧ 2048 ≤ n ∧
            ¬ (55296 ≤ n ∧ n < 57344) then
          Char.ofNat n :: utf8DecodeReplace rest2
        else replChar :: utf8DecodeReplace (b2 :: b3 :: rest2)
      | [b2] => replChar :: utf8DecodeReplace [b2]
      | [] => [replChar]
    else if b < 245 then
      match rest with
      | b2 :: b3 :: b4 :: rest2 =>
        let n := (b - 240) * 262144 + (b2 - 128) * 4096 + (b3 - 128) * 64 + (b4 - 128)
        if (128 ≤ b2 ∧ b2 < 192) ∧ (128 ≤ b3 ∧ b3 < 192) ∧ (128 ≤ b4 ∧ b4 < 192) ∧
            65536 ≤ n ∧ n < 1114112 then
          Char.ofNat n :: utf8DecodeReplace rest2
        else replChar :: utf8DecodeReplace (b2 :: b3 :: b4 :: rest2)
      | [b2, b3] => replChar :: utf8DecodeReplace [b2, b3]
      | [b2] => replChar :: utf8DecodeReplace [b2]
      | [] => [replChar]
    else replChar :: utf8DecodeReplace rest

/-- Value of a hexadecimal digit character, as accepted by
`bytes.fromhex` inside `urllib.parse.unquote`. -/
def hexVal? (c : Char) : Option Nat :=
  if '0' ≤ c ∧ c ≤ '9' then some (c.toNat - 48)
  else if 'A' ≤ c ∧ c ≤ 'F' then some (c.toNat - 55)
  else if 'a' ≤ c ∧ c ≤ 'f' then some (c.toNat - 87)
  else none

/-- Core of `urllib.parse.unquote`: each maximal run of `%XX` escapes is
collected into a byte sequence and UTF-8-decoded with replacement;
other characters (and `%` not followed by two hex digits) pass through
unchanged.  `acc` holds the bytes of the current escape run. -/
def unquoteAux : List Char → List Nat → List Char
  | [], acc => utf8DecodeReplace acc
  | '%' :: c1 :: c2 :: rest, acc =>
    match hexVal? c1, hexVal? c2 with
    | some h1, some h2 => unquoteAux rest (acc ++ [h1 * 16 + h2])
    | _, _ => utf8DecodeReplace acc ++ '%' :: unquoteAux (c1 :: c2 :: rest) []
  | c :: rest, acc => utf8DecodeReplace acc ++ c :: unquoteAux rest []

/-- Python `urllib.parse.unquote_plus` on the characters of a field:
`+` becomes a space, then `%XX` escapes are decoded. -/
def unquotePlus (l : List Char) : String :=
  String.mk (unquoteAux (l.map (fun c => if c = '+' then ' ' else c)) [])

/-- Split a character list at every `&`, as Python `qs.split('&')` does
inside `urllib.parse.parse_qs`. -/
def splitAmp : List Char → List (List Char)
  | [] => [[]]
  | c :: rest =>
    if c = '&' then [] :: splitAmp rest
    else
      match splitAmp rest with
      | [] => [[c]]
      | h :: t => (c :: h) :: t

/-- Split a segment at its first `=` (Python `name_value.split('=', 1)`);
`none` when the segment contains no `=`. -/
def splitFirstEq : List Char → Option (List Char × List Char)
  | [] => none
  | c :: rest =>
    if c = '=' then some ([], rest)
    else (splitFirstEq rest).map (fun pr => (c :: pr.1, pr.2))

/-- Python `urllib.parse.parse_qsl` with its defaults
(`keep_blank_values=False`, `strict_parsing=False`, separator `&`):
empty segments, segments without `=` and pairs with an empty value are
dropped; names and values are unquoted with `unquote_plus`. -/
def parse_qsl (s : String) : List (String × String) :=
  (splitAmp s.data).filterMap fun seg =>
    match splitFirstEq seg with
    | none => none
    | some (n, v) => if v = [] then none else some (unquotePlus n, unquotePlus v)

/-- Python `urllib.parse.parse_qs`, viewed as the resulting dictionary:
the list of values associated with `key`, in occurrence order.  A key is
in the dictionary iff this list is nonempty, and `vars[key][0]` is its
head. -/
def parse_qs (s : String) (key : String) : List String :=
  (parse_qsl s).filterMap fun pr => if pr.1 = key then some pr.2 else none

/-- Character `i` of the standard base64 alphabet
`A-Z a-z 0-9 + /` (RFC 4648), used by Python `base64.b64encode`. -/
def alphaB64 (n : Nat) : Char :=
  if n < 26 then Char.ofNat (65 + n)
  else if n < 52 then Char.ofNat (97 + (n - 26))
  else if n < 62 then Char.ofNat (48 + (n - 52))
  else if n = 62 then '+' else '/'

/-- Index of a character in the standard base64 alphabet. -/
def alphaB64Inv (c : Char) : Option Nat :=
  if 'A' ≤ c ∧ c ≤ 'Z' then some (c.toNat - 65)
  else if 'a' ≤ c ∧ c ≤ 'z' then some (c.toNat - 97 + 26)
  else if '0' ≤ c ∧ c ≤ '9' then some (c.toNat - 48 + 52)
  else if c = '+' then some 62
  else if c = '/' then some 63
  else none

/-- Python `base64.b64encode` on a byte sequence: three bytes become
four alphabet characters; a final group of one or two bytes is padded
with `=`. -/
def b64encodeList : List Nat → List Char
  | [] => []
  | [a] => [alphaB64 (a / 4), alphaB64 (a % 4 * 16), '=', '=']
  | [a, b] => [alphaB64 (a / 4), alphaB64 (a % 4 * 16 + b / 16), alphaB64 (b % 16 * 4), '=']
  | a :: b :: c :: rest =>
    alphaB64 (a / 4) :: alphaB64 (a % 4 * 16 + b / 16) ::
      alphaB64 (b % 16 * 4 + c / 64) :: alphaB64 (c % 64) :: b64encodeList rest

/-- Standard base64 decoding (the inverse direction the spec appeals to
when it says "base64-decoding the emitted header"): groups of four
characters, `=` padding allowed only at the very end; `none` on
anything malformed. -/
def b64decodeList : List Char → Option (List Nat)
  | c1 :: c2 :: c3 :: c4 :: rest =>
    match alphaB64Inv c1, alphaB64Inv c2 with
    | some s1, some s2 =>
      if c3 = '=' then
        if c4 = '=' ∧ rest = [] then some [s1 * 4 + s2 / 16] else none
      else
        match alphaB64Inv c3 with
        | some s3 =>
          if c4 = '=' then
            if rest = [] then some [s1 * 4 + s2 / 16, s2 % 16 * 16 + s3 / 4] else none
          else
            match alphaB64Inv c4, b64decodeList rest with
            | some s4, some bs =>
              some ((s1 * 4 + s2 / 16) :: (s2 % 16 * 16 + s3 / 4) :: (s3 % 4 * 64 + s4) :: bs)
            | _, _ => none
        | none => none
    | _, _ => none
  | [] => some []
  | _ => none

/-- The handler's `b64` lambda (line 79):
`lambda s: base64.b64encode(s.encode()).decode()`. -/
def b64 (s : String) : String := String.mk (b64encodeList (utf8Encode s))

/-- The fixed credential table `DUMMY_USERS` of the handler:
user id, display name, roles string. -/
def DUMMY_USERS : List (String × String × String) :=
  [("admin", "Administrator",
    "ROLE_ADMIN, ROLE_USER_ADMIN, ROLE_ANONYMOUS, ROLE_USER, ROLE_SUDO"),
   ("sabine", "Sabine Rudolfs",
    "ROLE_USER_SABINE, ROLE_ANONYMOUS, ROLE_USER, ROLE_INSTRUCTOR, ROLE_TOBIRA_MODERATOR"),
   ("augustus", "Augustus Pagenkämper",
    "ROLE_USER_AUGUSTUS, ROLE_ANONYMOUS, ROLE_USER, ROLE_STUDENT")]

/-- Python dictionary lookup `DUMMY_USERS[userid]` (and the membership
test `userid in DUMMY_USERS`): exact, case-sensitive string match on
the key. -/
def dummyLookup (u : String) : Option (String × String) :=
  (DUMMY_USERS.find? (fun e => e.1 == u)).map (fun e => e.2)

/-- The handler's `check_login`: succeeds iff the password is the
literal `"tobira"` and the user id is a key of `DUMMY_USERS`, returning
`[userid, display_name, roles]`. -/
def check_login (userid password : String) : Option (String × String × String) :=
  if password = "tobira" then
    match dummyLookup userid with
    | some (dn, roles) => some (userid, dn, roles)
    | none => none
  else none

/-- Field name constant from the source. -/
def USERID_FIELD : String := "userid"

/-- Field name constant from the source. -/
def PASSWORD_FIELD : String := "password"

/-- Python `s.startswith(pre)`. -/
def startswith (s pre : String) : Bool := pre.data.isPrefixOf s.data

/-- An incoming POST request, as seen by `Handler.do_POST`: the
`content-type` and `content-length` headers (absent headers are `none`)
and the raw body bytes available on `self.rfile`. -/
structure Request where
  contentType : Option String
  contentLength : Option String
  body : List Nat
deriving DecidableEq

/-- The observable outcome of one handled request: status code, the
headers sent with `send_header`, the response body (the handler never
writes one), and the diagnostic line printed to standard output, if
any. -/
structure HandlerOutput where
  status : Nat
  headers : List (String × String)
  body : List Nat
  log : Option String
deriving DecidableEq

/-- ASCII whitespace stripped by Python `int(str)`. -/
def isPySpace (c : Char) : Bool :=
  c = ' ' || c = '\t' || c = '\n' || c = '\x0d' || c = '\x0b' || c = '\x0c'

/-- Decimal digit run to a number; `none` when empty or not all digits. -/
def digitsToNat? (l : List Char) : Option Nat :=
  if l ≠ [] ∧ ∀ c ∈ l, '0' ≤ c ∧ c ≤ '9' then
    some (l.foldl (fun a c => a * 10 + (c.toNat - 48)) 0)
  else none

/-- Python `int(x)` applied to an optional header value: `int(None)`
raises `TypeError` (`none`), and a string is parsed as an optionally
signed decimal integer with surrounding ASCII whitespace allowed
(`ValueError`, i.e. `none`, otherwise; underscore digit grouping and
non-ASCII digits, which CPython also accepts, are not modelled as no
header ever carries them). -/
def pyInt? : Option String → Option Int
  | none => none
  | some s =>
    let t := ((s.data.dropWhile isPySpace).reverse.dropWhile isPySpace).reverse
    match t with
    | '+' :: rest => (digitsToNat? rest).map Int.ofNat
    | '-' :: rest => (digitsToNat? rest).map (fun n => -(n : Int))
    | _ => (digitsToNat? t).map Int.ofNat

/-- Number of body bytes read by `self.rfile.read(length)`: at most the
declared length, bounded by what is available; a negative argument
reads everything. -/
def readLen (n : Int) (avail : Nat) : Nat :=
  if n < 0 then avail else min n.toNat avail

/-- Lines 52-54 of the handler: convert the `content-length` header with
`int` (an exception, `none`, when that fails), read that many body
bytes and decode them as UTF-8 (an exception, `none`, on invalid
UTF-8). -/
def readBody? (r : Request) : Option String :=
  match pyInt? r.contentLength with
  | none => none
  | some n => (utf8Decode? (r.body.take (readLen n r.body.length))).map String.mk

/-- The content-type guard of `do_POST`: the header must be present and
its value must start with the exact literal
`application/x-www-form-urlencoded`. -/
def contentTypeOk (r : Request) : Bool :=
  match r.contentType with
  | none => false
  | some ct => startswith ct "application/x-www-form-urlencoded"

/-- The part of `do_POST` after the body has been read and decoded:
field-presence check, extraction of the first `userid` and `password`
values, `check_login`, and construction of the 400 / 403 / 204
response together with its log line. -/
def handleBody (bodyStr : String) : HandlerOutput :=
  if (parse_qs bodyStr USERID_FIELD).isEmpty || (parse_qs bodyStr PASSWORD_FIELD).isEmpty then
    ⟨400, [], [], none⟩
  else
    let userid := (parse_qs bodyStr USERID_FIELD).headD ""
    let password := (parse_qs bodyStr PASSWORD_FIELD).headD ""
    match check_login userid password with
    | none => ⟨403, [], [], some ("Incorrect login " ++ userid ++ ":" ++ password)⟩
    | some (username, dn, roles) =>
      ⟨204,
       [("x-tobira-username", b64 username),
        ("x-tobira-user-display-name", b64 dn),
        ("x-tobira-user-roles", b64 roles),
        ("x-accel-redirect", "/~successful-login")], [],
       some ("Successful login of " ++ username ++ " (" ++ dn ++ "): " ++ roles)⟩

/-- `Handler.do_POST`: content-type guard, body read (whose failures are
uncaught exceptions, i.e. `none`), then `handleBody`. -/
def do_POST (r : Request) : Option HandlerOutput :=
  if contentTypeOk r then (readBody? r).map handleBody
  else some ⟨400, [], [], none⟩

/-- Convenience constructor for a well-formed request carrying `body`:
correct content type and a `content-length` covering the whole
UTF-8-encoded body. -/
def mkReq (body : String) : Request :=
  ⟨some "application/x-www-form-urlencoded",
   some (toString (utf8Encode body).length), utf8Encode body⟩

/-! ## Helper lemmas -/

/-- Every Unicode code point is below 0x110000. -/
theorem char_toNat_lt (c : Char) : c.toNat < 1114112 := by
  have h := c.valid
  rcases h with h | h <;> simp [Char.toNat] <;> omega

/-- UTF-8 encoding produces bytes. -/
theorem utf8EncodeChar_lt (c : Char) : ∀ x ∈ utf8EncodeChar c, x < 256 := by
  have hc := char_toNat_lt c
  intro x hx
  simp only [utf8EncodeChar] at hx
  split at hx
  · simp at hx; omega
  · split at hx
    · simp at hx; rcases hx with h | h <;> omega
    · split at hx
      · simp at hx; rcases hx with h | h | h <;> omega
      · simp at hx; rcases hx with h | h | h | h <;> omega

/-- UTF-8 encoding of a string produces bytes. -/
theorem utf8Encode_lt (s : String) : ∀ x ∈ utf8Encode s, x < 256 := by
  intro x hx
  simp only [utf8Encode, List.mem_flatMap] at hx
  obtain ⟨c, _, hc⟩ := hx
  exact utf8EncodeChar_lt c x hc

/-- The base64 alphabet map and its inverse cancel on sextets. -/
theorem alphaB64Inv_alphaB64 : ∀ n, n < 64 → alphaB64Inv (alphaB64 n) = some n := by decide

/-- No alphabet character is the padding character. -/
theorem alphaB64_ne_pad : ∀ n, n < 64 → ¬ alphaB64 n = '=' := by decide

/-- Base64 decoding is a left inverse of base64 encoding on byte
sequences. -/
theorem b64decode_encode : ∀ bs : List Nat, (∀ x ∈ bs, x < 256) →
    b64decodeList (b64encodeList bs) = some bs
  | [] => fun _ => rfl
  | [a] => fun h => by
    have ha : a < 256 := h a (by simp)
    have h1 := alphaB64Inv_alphaB64 (a / 4) (by omega)
    have h2 := alphaB64Inv_alphaB64 (a % 4 * 16) (by omega)
    simp [b64encodeList, b64decodeList, h1, h2]
    all_goals omega
  | [a, b] => fun h => by
    have ha : a < 256 := h a (by simp)
    have hb : b < 256 := h b (by simp)
    have h1 := alphaB64Inv_alphaB64 (a / 4) (by omega)
    have h2 := alphaB64Inv_alphaB64 (a % 4 * 16 + b / 16) (by omega)
    have h3 := alphaB64Inv_alphaB64 (b % 16 * 4) (by omega)
    simp [b64encodeList, b64decodeList, h1, h2, h3,
      alphaB64_ne_pad (b % 16 * 4) (by omega)]
    all_goals omega
  | a :: b :: c :: rest => fun h => by
    have ha : a < 256 := h a (by simp)
    have hb : b < 256 := h b (by simp)
    have hc : c < 256 := h c (by simp)
    have ih := b64decode_encode rest (fun x hx => h x (by simp [hx]))
    have h1 := alphaB64Inv_alphaB64 (a / 4) (by omega)
    have h2 := alphaB64Inv_alphaB64 (a % 4 * 16 + b / 16) (by omega)
    have h3 := alphaB64Inv_alphaB64 (b % 16 * 4 + c / 64) (by omega)
    have h4 := alphaB64Inv_alphaB64 (c % 64) (by omega)
    simp [b64encodeList, b64decodeList, h1, h2, h3, h4,
      alphaB64_ne_pad (b % 16 * 4 + c / 64) (by omega),
      alphaB64_ne_pad (c % 64) (by omega), ih]
    all_goals omega

/-- A list with a known head is nonempty. -/
theorem isEmpty_false_of_head? {α : Type} {l : List α} {a : α}
    (h : l.head? = some a) : l.isEmpty = false := by
  cases l <;> simp_all

/-- `headD` through a known `head?`. -/
theorem headD_eq_of_head? {α : Type} {l : List α} {a : α} (d : α)
    (h : l.head? = some a) : l.headD d = a := by
  cases l <;> simp_all

/-- Lists with the same `head?` agree on `isEmpty`. -/
theorem isEmpty_congr_of_head? {α : Type} {l₁ l₂ : List α}
    (h : l₁.head? = l₂.head?) : l₁.isEmpty = l₂.isEmpty := by
  cases l₁ <;> cases l₂ <;> simp_all

/-- Lists with the same `head?` agree on `headD`. -/
theorem headD_congr_of_head? {α : Type} {l₁ l₂ : List α} (d : α)
    (h : l₁.head? = l₂.head?) : l₁.headD d = l₂.headD d := by
  cases l₁ <;> cases l₂ <;> simp_all

/-- When both fields are present with first values `u` and `p`,
`handleBody` is the response determined by `check_login u p`. -/
theorem handleBody_eq (s u p : String)
    (hu : (parse_qs s USERID_FIELD).head? = some u)
    (hp : (parse_qs s PASSWORD_FIELD).head? = some p) :
    handleBody s =
      match check_login u p with
      | none => ⟨403, [], [], some ("Incorrect login " ++ u ++ ":" ++ p)⟩
      | some (username, dn, roles) =>
        ⟨204,
         [("x-tobira-username", b64 username),
          ("x-tobira-user-display-name", b64 dn),
          ("x-tobira-user-roles", b64 roles),
          ("x-accel-redirect", "/~successful-login")], [],
         some ("Successful login of " ++ username ++ " (" ++ dn ++ "): " ++ roles)⟩ := by
  have hne1 := isEmpty_false_of_head? hu
  have hne2 := isEmpty_false_of_head? hp
  have hd1 := headD_eq_of_head? "" hu
  have hd2 := headD_eq_of_head? "" hp
  simp [handleBody, hne1, hne2, hd1, hd2, hu, hp]

/-- A successful `check_login` returns the submitted user id with the
record found in the table, and forces the password to be the constant. -/
theorem check_login_some {u p a dn roles : String}
    (h : check_login u p = some (a, dn, roles)) :
    a = u ∧ p = "tobira" ∧ dummyLookup u = some (dn, roles) := by
  by_cases hp : p = "tobira"
  · cases hdl : dummyLookup u with
    | none => simp [check_login, hp, hdl] at h
    | some dr =>
      cases dr with
      | mk dn2 roles2 =>
        simp [check_login, hp, hdl] at h
        obtain ⟨ha, hdn, hroles⟩ := h
        subst hdn
        subst hroles
        exact ⟨ha.symm, hp, rfl⟩
  · simp [check_login, hp] at h

/-- A successful table lookup is one of the three defined records. -/
theorem dummyLookup_cases (u dn roles : String)
    (h : dummyLookup u = some (dn, roles)) :
    (u = "admin" ∧ dn = "Administrator" ∧
      roles = "ROLE_ADMIN, ROLE_USER_ADMIN, ROLE_ANONYMOUS, ROLE_USER, ROLE_SUDO") ∨
    (u = "sabine" ∧ dn = "Sabine Rudolfs" ∧
      roles = "ROLE_USER_SABINE, ROLE_ANONYMOUS, ROLE_USER, ROLE_INSTRUCTOR, ROLE_TOBIRA_MODERATOR") ∨
    (u = "augustus" ∧ dn = "Augustus Pagenkämper" ∧
      roles = "ROLE_USER_AUGUSTUS, ROLE_ANONYMOUS, ROLE_USER, ROLE_STUDENT") := by
  by_cases h1 : u = "admin"
  · subst h1
    have e : dummyLookup "admin" =
        some ("Administrator",
          "ROLE_ADMIN, ROLE_USER_ADMIN, ROLE_ANONYMOUS, ROLE_USER, ROLE_SUDO") := by decide
    rw [e] at h
    simp at h
    exact Or.inl ⟨rfl, h.1.symm, h.2.symm⟩
  · by_cases h2 : u = "sabine"
    · subst h2
      have e : dummyLookup "sabine" =
          some ("Sabine Rudolfs",
            "ROLE_USER_SABINE, ROLE_ANONYMOUS, ROLE_USER, ROLE_INSTRUCTOR, ROLE_TOBIRA_MODERATOR") := by decide
      rw [e] at h
      simp at h
      exact Or.inr (Or.inl ⟨rfl, h.1.symm, h.2.symm⟩)
    · by_cases h3 : u = "augustus"
      · subst h3
        have e : dummyLookup "augustus" =
            some ("Augustus Pagenkämper",
              "ROLE_USER_AUGUSTUS, ROLE_ANONYMOUS, ROLE_USER, ROLE_STUDENT") := by decide
        rw [e] at h
        simp at h
        exact Or.inr (Or.inr ⟨rfl, h.1.symm, h.2.symm⟩)
      · exfalso
        have a1 : (("admin" : String) == u) = false := by
          rw [beq_eq_false_iff_ne]
          exact fun e => h1 e.symm
        have a2 : (("sabine" : String) == u) = false := by
          rw [beq_eq_false_iff_ne]
          exact fun e => h2 e.symm
        have a3 : (("augustus" : String) == u) = false := by
          rw [beq_eq_false_iff_ne]
          exact fun e => h3 e.symm
        simp [dummyLookup, DUMMY_USERS, List.find?, a1, a2, a3] at h

/-! ## Claims -/

/-- C1: for every well-formed request (valid content type, readable
body, both fields present) whose first `userid` value is `u` and first
`password` value is `p`, the handler produces a response whose status
is 204 (Accepted) iff `p` equals the literal `"tobira"` and `u` is a
key of the credential table; in every other case the status is
403 Forbidden with no headers and no body. -/
theorem C1_auth_iff (r : Request) (s u p : String)
    (hct : contentTypeOk r = true)
    (hb : readBody? r = some s)
    (hu : (parse_qs s USERID_FIELD).head? = some u)
    (hp : (parse_qs s PASSWORD_FIELD).head? = some p) :
    ∃ out, do_POST r = some out ∧
      (out.status = 204 ↔ p = "tobira" ∧ (dummyLookup u).isSome = true) ∧
      (¬ (p = "tobira" ∧ (dummyLookup u).isSome = true) →
        out.status = 403 ∧ out.headers = [] ∧ out.body = []) := by
  have hbe := handleBody_eq s u p hu hp
  refine ⟨handleBody s, by simp [do_POST, hct, hb], ?_, ?_⟩
  · rw [hbe]
    by_cases hpw : p = "tobira"
    · cases hdl : dummyLookup u with
      | none => simp [check_login, hpw, hdl]
      | some dr =>
        cases dr with
        | mk dn roles => simp [check_login, hpw, hdl]
    · simp [check_login, hpw]
  · intro hno
    rw [hbe]
    by_cases hpw : p = "tobira"
    · have hdl : dummyLookup u = none := by
        rcases hlk : dummyLookup u with _ | dr
        · rfl
        · exact absurd ⟨hpw, by simp [hlk]⟩ hno
      simp [check_login, hpw, hdl]
    · simp [check_login, hpw]

/-- C1 witness: the concrete request `userid=admin&password=tobira`. -/
theorem C1_auth_iff_witness :
    ∃ out, do_POST (mkReq "userid=admin&password=tobira") = some out ∧
      (out.status = 204 ↔ "tobira" = "tobira" ∧ (dummyLookup "admin").isSome = true) ∧
      (¬ ("tobira" = "tobira" ∧ (dummyLookup "admin").isSome = true) →
        out.status = 403 ∧ out.headers = [] ∧ out.body = []) :=
  C1_auth_iff (mkReq "userid=admin&password=tobira") "userid=admin&password=tobira"
    "admin" "tobira" (by decide) (by decide) (by decide) (by decide)

/-- C3: a request with no `Content-Type` header, or one whose value does
not start with the exact literal `application/x-www-form-urlencoded`,
is answered 400 Bad Request with no headers, no body and no log line,
and nothing further happens. -/
theorem C3_bad_content_type (r : Request)
    (h : r.contentType = none ∨
      ∃ ct, r.contentType = some ct ∧
        startswith ct "application/x-www-form-urlencoded" = false) :
    do_POST r = some ⟨400, [], [], none⟩ := by
  have hct : contentTypeOk r = false := by
    rcases h with h | ⟨ct, hc, hs⟩
    · simp [contentTypeOk, h]
    · simp [contentTypeOk, hc, hs]
  simp [do_POST, hct]

/-- C3 witness: a request with no `Content-Type` header at all. -/
theorem C3_bad_content_type_witness :
    do_POST ⟨none, none, []⟩ = some ⟨400, [], [], none⟩ :=
  C3_bad_content_type ⟨none, none, []⟩ (Or.inl rfl)

/-- C4: a request with a valid content type whose parsed form body lacks
the `userid` field or the `password` field is answered 400 Bad Request
with no headers, no body and no log line, without reaching the
credential check. -/
theorem C4_missing_fields (r : Request) (s : String)
    (hct : contentTypeOk r = true)
    (hb : readBody? r = some s)
    (hmiss : parse_qs s USERID_FIELD = [] ∨ parse_qs s PASSWORD_FIELD = []) :
    do_POST r = some ⟨400, [], [], none⟩ := by
  have hh : handleBody s = ⟨400, [], [], none⟩ := by
    rcases hmiss with h | h <;> simp [handleBody, h]
  simp [do_POST, hct, hb, hh]

/-- C4 witness: the body `password=tobira`, which lacks `userid`. -/
theorem C4_missing_fields_witness :
    do_POST (mkReq "password=tobira") = some ⟨400, [], [], none⟩ :=
  C4_missing_fields (mkReq "password=tobira") "password=tobira"
    (by decide) (by decide) (Or.inl (by decide))

/-- C9 (implicit): a field present in the raw body with an empty value
is dropped by query-string parsing and hence treated as missing: the
body `userid=&password=tobira` yields 400 Bad Request (not 403), the
parsed mapping has no `userid` key, while `password` is parsed
normally. -/
theorem C9_blank_value_missing :
    do_POST (mkReq "userid=&password=tobira") = some ⟨400, [], [], none⟩ ∧
    parse_qs "userid=&password=tobira" USERID_FIELD = [] ∧
    parse_qs "userid=&password=tobira" PASSWORD_FIELD = ["tobira"] := by
  refine ⟨by decide, by decide, by decide⟩

/-- C10 (implicit): when the content-type check passes but the
`content-length` header is absent or not an integer (`pyInt?` fails,
as `int()` raises in Python), the handler raises before constructing
any response: `do_POST` yields no 400/403/204 outcome at all. -/
theorem C10_content_length_exception (r : Request)
    (hct : contentTypeOk r = true)
    (hlen : pyInt? r.contentLength = none) :
    do_POST r = none := by
  simp [do_POST, hct, readBody?, hlen]

/-- C10 witness: valid content type but no `content-length` header. -/
theorem C10_content_length_exception_witness :
    do_POST ⟨some "application/x-www-form-urlencoded", none, []⟩ = none :=
  C10_content_length_exception ⟨some "application/x-www-form-urlencoded", none, []⟩
    (by decide) rfl

/-- C2: each of the three defined user ids submitted with password
`"tobira"` gets a 204 No Content response whose three `x-tobira-*`
headers base64-decode exactly to the UTF-8 encodings of the user id,
its display name and its roles string from the credential table, and
whose `x-accel-redirect` header is the literal, non-encoded
`/~successful-login`. -/
theorem C2_success_headers :
    (do_POST (mkReq "userid=admin&password=tobira") = some
      ⟨204,
       [("x-tobira-username", b64 "admin"),
        ("x-tobira-user-display-name", b64 "Administrator"),
        ("x-tobira-user-roles",
         b64 "ROLE_ADMIN, ROLE_USER_ADMIN, ROLE_ANONYMOUS, ROLE_USER, ROLE_SUDO"),
        ("x-accel-redirect", "/~successful-login")], [],
       some "Successful login of admin (Administrator): ROLE_ADMIN, ROLE_USER_ADMIN, ROLE_ANONYMOUS, ROLE_USER, ROLE_SUDO"⟩ ∧
     b64decodeList (b64 "admin").data = some (utf8Encode "admin") ∧
     b64decodeList (b64 "Administrator").data = some (utf8Encode "Administrator") ∧
     b64decodeList (b64 "ROLE_ADMIN, ROLE_USER_ADMIN, ROLE_ANONYMOUS, ROLE_USER, ROLE_SUDO").data =
       some (utf8Encode "ROLE_ADMIN, ROLE_USER_ADMIN, ROLE_ANONYMOUS, ROLE_USER, ROLE_SUDO")) ∧
    (do_POST (mkReq "userid=sabine&password=tobira") = some
      ⟨204,
       [("x-tobira-username", b64 "sabine"),
        ("x-tobira-user-display-name", b64 "Sabine Rudolfs"),
        ("x-tobira-user-roles",
         b64 "ROLE_USER_SABINE, ROLE_ANONYMOUS, ROLE_USER, ROLE_INSTRUCTOR, ROLE_TOBIRA_MODERATOR"),
        ("x-accel-redirect", "/~successful-login")], [],
       some "Successful login of sabine (Sabine Rudolfs): ROLE_USER_SABINE, ROLE_ANONYMOUS, ROLE_USER, ROLE_INSTRUCTOR, ROLE_TOBIRA_MODERATOR"⟩ ∧
     b64decodeList (b64 "sabine").data = some (utf8Encode "sabine") ∧
     b64decodeList (b64 "Sabine Rudolfs").data = some (utf8Encode "Sabine Rudolfs") ∧
     b64decodeList (b64 "ROLE_USER_SABINE, ROLE_ANONYMOUS, ROLE_USER, ROLE_INSTRUCTOR, ROLE_TOBIRA_MODERATOR").data =
       some (utf8Encode "ROLE_USER_SABINE, ROLE_ANONYMOUS, ROLE_USER, ROLE_INSTRUCTOR, ROLE_TOBIRA_MODERATOR")) ∧
    (do_POST (mkReq "userid=augustus&password=tobira") = some
      ⟨204,
       [("x-tobira-username", b64 "augustus"),
        ("x-tobira-user-display-name", b64 "Augustus Pagenkämper"),
        ("x-tobira-user-roles",
         b64 "ROLE_USER_AUGUSTUS, ROLE_ANONYMOUS, ROLE_USER, ROLE_STUDENT"),
        ("x-accel-redirect", "/~successful-login")], [],
       some "Successful login of augustus (Augustus Pagenkämper): ROLE_USER_AUGUSTUS, ROLE_ANONYMOUS, ROLE_USER, ROLE_STUDENT"⟩ ∧
     b64decodeList (b64 "augustus").data = some (utf8Encode "augustus") ∧
     b64decodeList (b64 "Augustus Pagenkämper").data = some (utf8Encode "Augustus Pagenkämper") ∧
     b64decodeList (b64 "ROLE_USER_AUGUSTUS, ROLE_ANONYMOUS, ROLE_USER, ROLE_STUDENT").data =
       some (utf8Encode "ROLE_USER_AUGUSTUS, ROLE_ANONYMOUS, ROLE_USER, ROLE_STUDENT")) := by
  refine ⟨⟨?_, ?_, ?_, ?_⟩, ⟨?_, ?_, ?_, ?_⟩, ⟨?_, ?_, ?_, ?_⟩⟩ <;> decide

/-- C5: only the first value of a repeated field matters: two requests
whose parsed bodies agree on the first `userid` and first `password`
values (presence included) are answered identically; concretely, the
body `userid=admin&userid=sabine&password=tobira` authenticates as
`admin`. -/
theorem C5_first_value_wins :
    (∀ (r₁ r₂ : Request) (s₁ s₂ : String),
      contentTypeOk r₁ = true → contentTypeOk r₂ = true →
      readBody? r₁ = some s₁ → readBody? r₂ = some s₂ →
      (parse_qs s₁ USERID_FIELD).head? = (parse_qs s₂ USERID_FIELD).head? →
      (parse_qs s₁ PASSWORD_FIELD).head? = (parse_qs s₂ PASSWORD_FIELD).head? →
      do_POST r₁ = do_POST r₂) ∧
    do_POST (mkReq "userid=admin&userid=sabine&password=tobira") = some
      ⟨204,
       [("x-tobira-username", b64 "admin"),
        ("x-tobira-user-display-name", b64 "Administrator"),
        ("x-tobira-user-roles",
         b64 "ROLE_ADMIN, ROLE_USER_ADMIN, ROLE_ANONYMOUS, ROLE_USER, ROLE_SUDO"),
        ("x-accel-redirect", "/~successful-login")], [],
       some "Successful login of admin (Administrator): ROLE_ADMIN, ROLE_USER_ADMIN, ROLE_ANONYMOUS, ROLE_USER, ROLE_SUDO"⟩ := by
  constructor
  · intro r₁ r₂ s₁ s₂ h1 h2 hb1 hb2 hu hp
    have e1 := isEmpty_congr_of_head? hu
    have e2 := isEmpty_congr_of_head? hp
    have d1 := headD_congr_of_head? "" hu
    have d2 := headD_congr_of_head? "" hp
    suffices hs : handleBody s₁ = handleBody s₂ by
      simp [do_POST, h1, h2, hb1, hb2, hs]
    unfold handleBody
    rw [e1, e2, d1, d2]
  · decide

/-- C5 witness: two concrete requests, one with a repeated `userid`
field, that agree on first values and get the same response. -/
theorem C5_first_value_wins_witness :
    do_POST (mkReq "userid=admin&userid=sabine&password=tobira") =
      do_POST (mkReq "userid=admin&password=tobira") :=
  C5_first_value_wins.1
    (mkReq "userid=admin&userid=sabine&password=tobira")
    (mkReq "userid=admin&password=tobira")
    "userid=admin&userid=sabine&password=tobira" "userid=admin&password=tobira"
    (by decide) (by decide) (by decide) (by decide) (by decide) (by decide)

/-- The head of a nonempty list through `headD`. -/
theorem head?_eq_headD_of_not_isEmpty {α : Type} {l : List α} (d : α)
    (h : l.isEmpty = false) : l.head? = some (l.headD d) := by
  cases l <;> simp_all

/-- C6 counterexample: a request with no `Content-Type` header gets its
400 response with `log = none` — the handler prints nothing on the 400
paths, refuting "exactly one diagnostic log line for every request,
including requests that result in a 400 response". -/
theorem C6_log_counterexample :
    do_POST ⟨none, none, []⟩ = some ⟨400, [], [], none⟩ ∧
    (⟨400, [], [], none⟩ : HandlerOutput).log = none :=
  ⟨rfl, rfl⟩

/-- C6 as amended: every response the handler constructs is either a
400 with no log line, or — with `u` and `p` the first `userid` and
`password` values of the request's parsed body — a 403 whose log line
is exactly `Incorrect login u:p` with the attempted credentials
interpolated, or a 204 whose log line is exactly
`Successful login of u (dn): roles` for the table record `(dn, roles)`
of the submitted id `u`; only requests that reach the credential check
produce a log line. -/
theorem C6_log_amended (r : Request) (out : HandlerOutput)
    (h : do_POST r = some out) :
    (out.status = 400 ∧ out.log = none) ∨
    (∃ s, readBody? r = some s ∧
      (parse_qs s USERID_FIELD).isEmpty = false ∧
      (parse_qs s PASSWORD_FIELD).isEmpty = false ∧
      ((out.status = 403 ∧
        check_login ((parse_qs s USERID_FIELD).headD "")
          ((parse_qs s PASSWORD_FIELD).headD "") = none ∧
        out.log = some ("Incorrect login " ++ (parse_qs s USERID_FIELD).headD "" ++ ":" ++
          (parse_qs s PASSWORD_FIELD).headD "")) ∨
       (out.status = 204 ∧
        ∃ dn roles,
          dummyLookup ((parse_qs s USERID_FIELD).headD "") = some (dn, roles) ∧
          (parse_qs s PASSWORD_FIELD).headD "" = "tobira" ∧
          out.log = some ("Successful login of " ++ (parse_qs s USERID_FIELD).headD "" ++
            " (" ++ dn ++ "): " ++ roles)))) := by
  by_cases hct : contentTypeOk r
  · rw [do_POST, if_pos hct] at h
    cases hrb : readBody? r with
    | none => rw [hrb] at h; simp at h
    | some s =>
      rw [hrb] at h
      simp at h
      subst h
      by_cases hmiss : ((parse_qs s USERID_FIELD).isEmpty ||
          (parse_qs s PASSWORD_FIELD).isEmpty) = true
      · left
        rw [handleBody, if_pos hmiss]
        exact ⟨rfl, rfl⟩
      · simp only [Bool.or_eq_true, not_or, Bool.not_eq_true] at hmiss
        have hu := head?_eq_headD_of_not_isEmpty "" hmiss.1
        have hp := head?_eq_headD_of_not_isEmpty "" hmiss.2
        rw [handleBody_eq s _ _ hu hp]
        cases hcl : check_login ((parse_qs s USERID_FIELD).headD "")
            ((parse_qs s PASSWORD_FIELD).headD "") with
        | none =>
          exact Or.inr ⟨s, rfl, hmiss.1, hmiss.2, Or.inl ⟨rfl, hcl, rfl⟩⟩
        | some triple =>
          obtain ⟨username, dn, roles⟩ := triple
          obtain ⟨hun, hpw, hdl⟩ := check_login_some hcl
          refine Or.inr ⟨s, rfl, hmiss.1, hmiss.2, Or.inr ⟨rfl, dn, roles, hdl, hpw, ?_⟩⟩
          rw [hun]
  · rw [do_POST, if_neg hct] at h
    simp only [Option.some.injEq] at h
    subst h
    exact Or.inl ⟨rfl, rfl⟩

/-- C6 witness for the amended statement, at the concrete failing
attempt `userid=nouser&password=wrong`, whose log line interpolates
exactly those attempted credentials. -/
theorem C6_log_amended_witness :
    ((403 : Nat) = 400 ∧ (some "Incorrect login nouser:wrong" : Option String) = none) ∨
    (∃ s, readBody? (mkReq "userid=nouser&password=wrong") = some s ∧
      (parse_qs s USERID_FIELD).isEmpty = false ∧
      (parse_qs s PASSWORD_FIELD).isEmpty = false ∧
      (((403 : Nat) = 403 ∧
        check_login ((parse_qs s USERID_FIELD).headD "")
          ((parse_qs s PASSWORD_FIELD).headD "") = none ∧
        (some "Incorrect login nouser:wrong" : Option String) =
          some ("Incorrect login " ++ (parse_qs s USERID_FIELD).headD "" ++ ":" ++
            (parse_qs s PASSWORD_FIELD).headD "")) ∨
       ((403 : Nat) = 204 ∧
        ∃ dn roles,
          dummyLookup ((parse_qs s USERID_FIELD).headD "") = some (dn, roles) ∧
          (parse_qs s PASSWORD_FIELD).headD "" = "tobira" ∧
          (some "Incorrect login nouser:wrong" : Option String) =
            some ("Successful login of " ++ (parse_qs s USERID_FIELD).headD "" ++
              " (" ++ dn ++ "): " ++ roles)))) :=
  C6_log_amended (mkReq "userid=nouser&password=wrong")
    ⟨403, [], [], some "Incorrect login nouser:wrong"⟩ (by decide)

/-- C7: round-trip — for every string `s` (non-ASCII included),
base64-decoding the header value produced by the handler's `b64`
encoder applied to `s` yields back exactly the UTF-8 byte encoding of
`s`. -/
theorem C7_b64_roundtrip (s : String) :
    b64decodeList (b64 s).data = some (utf8Encode s) :=
  b64decode_encode (utf8Encode s) (utf8Encode_lt s)

/-- C8: invariant of the credential table — every key maps to a record
with non-empty display name and non-empty roles string, and lookup is
exact, case-sensitive string matching: a successful lookup forces the
submitted id to be one of the three literal keys, and neither `Admin`
nor `ADMIN` matches the key `admin`. -/
theorem C8_table_invariant :
    (∀ u dn roles, dummyLookup u = some (dn, roles) → dn ≠ "" ∧ roles ≠ "") ∧
    (∀ u, (dummyLookup u).isSome = true →
      u = "admin" ∨ u = "sabine" ∨ u = "augustus") ∧
    dummyLookup "Admin" = none ∧ dummyLookup "ADMIN" = none := by
  refine ⟨?_, ?_, by decide, by decide⟩
  · intro u dn roles h
    rcases dummyLookup_cases u dn roles h with ⟨_, hd, hr⟩ | ⟨_, hd, hr⟩ | ⟨_, hd, hr⟩ <;>
      subst hd <;> subst hr <;> exact ⟨by decide, by decide⟩
  · intro u hs
    rw [Option.isSome_iff_exists] at hs
    obtain ⟨dr, hdr⟩ := hs
    obtain ⟨dn, roles⟩ := dr
    rcases dummyLookup_cases u dn roles hdr with ⟨hu, _, _⟩ | ⟨hu, _, _⟩ | ⟨hu, _, _⟩
    · exact Or.inl hu
    · exact Or.inr (Or.inl hu)
    · exact Or.inr (Or.inr hu)

/-- C8 witness: the invariant instantiated at the `admin` record. -/
theorem C8_table_invariant_witness :
    "Administrator" ≠ "" ∧
    "ROLE_ADMIN, ROLE_USER_ADMIN, ROLE_ANONYMOUS, ROLE_USER, ROLE_SUDO" ≠ "" :=
  C8_table_invariant.1 "admin" "Administrator"
    "ROLE_ADMIN, ROLE_USER_ADMIN, ROLE_ANONYMOUS, ROLE_USER, ROLE_SUDO" (by decide)

/-- C7 witness: the round-trip at a concrete non-ASCII string. -/
theorem C7_b64_roundtrip_witness :
    b64decodeList (b64 "Pagenkämper").data = some (utf8Encode "Pagenkämper") :=
  C7_b64_roundtrip "Pagenkämper"
